import Mathlib

/-
Shallow embedding of the mailer repository (src/mailer.py): the Message,
MailBox and Mailer classes.  IMAP transport is abstracted into a Session
state: the account folders (name and message list, the leaf-name parsing of
LIST descriptors is abstracted away), the currently selected folder, the
default folder, and three booleans giving the status the server reports for
the LIST, SEARCH and FETCH protocol calls.  MIME parsing of raw message
bytes is abstracted as a RawMsg record holding the already-extracted header
fields, body and attachments, exactly the fields Message.__init__ extracts.
Machine-level details (datetime objects, bytes) are represented as String
and List Nat.  Fallible Python code is modelled with Except / an MRes sum
distinguishing a normal value, a returned status string and a raised
exception.
-/

/-- Raw message payload as seen after MIME parsing: the fields that
Message.__init__ (src/mailer.py lines 14-28) extracts from the raw bytes. -/
structure RawMsg where
  id : String
  From : String
  To : String
  subject : String
  date_sent : String
  date_received : String
  attachments : List (String × List Nat)
  body : Option String
deriving DecidableEq

/-- The Message object of src/mailer.py: the parsed fields plus the
mailbox_name tag given at construction. -/
structure Message where
  id : String
  From : String
  To : String
  subject : String
  date_sent : String
  date_received : String
  attachments : List (String × List Nat)
  body : Option String
  mailbox_name : Option String
deriving DecidableEq

/-- Message construction (src/mailer.py line 26): mailbox_name is
str(mailbox) if mailbox is truthy, None otherwise; an empty string is
falsy in Python. -/
def Message.ofRaw (r : RawMsg) (mailbox : Option String) : Message where
  id := r.id
  From := r.From
  To := r.To
  subject := r.subject
  date_sent := r.date_sent
  date_received := r.date_received
  attachments := r.attachments
  body := r.body
  mailbox_name := match mailbox with
    | some s => if s = "" then none else some s
    | none => none

/-- The fixed key list self.keys (src/mailer.py line 28). -/
def Message.keys : List String :=
  ["id", "From", "To", "subject", "date_sent", "date_received", "attachments", "body"]

/-- Python exception kinds raised by the code paths modelled here. -/
inductive PyErr where
  | valueError : String → PyErr
  | keyError : String → PyErr
  | nameError : String → PyErr
  | attributeError : String → PyErr
deriving DecidableEq

/-- The dynamically typed value getattr returns for one of the 8 fields. -/
inductive FieldValue where
  | str : String → FieldValue
  | optStr : Option String → FieldValue
  | atts : List (String × List Nat) → FieldValue
deriving DecidableEq

/-- getattr(self, i) for the allowed keys (src/mailer.py lines 17-24).
The catch-all arm is unreachable through getitem, which checks membership
in Message.keys first. -/
def Message.field (m : Message) : String → FieldValue
  | "id" => .str m.id
  | "From" => .str m.From
  | "To" => .str m.To
  | "subject" => .str m.subject
  | "date_sent" => .str m.date_sent
  | "date_received" => .str m.date_received
  | "attachments" => .atts m.attachments
  | "body" => .optStr m.body
  | _ => .str ""

/-- String concatenation with a separator, written out structurally so that
proofs can evaluate it. -/
def strIntercalate (sep : String) : List String → String
  | [] => ""
  | [x] => x
  | x :: y :: xs => x ++ sep ++ strIntercalate sep (y :: xs)

/-- A single-quote character, used by the Python repr of lists of strings. -/
def squote : String := String.singleton (Char.ofNat 39)

/-- Python repr of a string: the text surrounded by single quotes. -/
def pyStrRepr (x : String) : String := squote ++ x ++ squote

/-- Python repr of a bytes value, abstracted: the payload bytes rendered in
decimal inside b quotes.  No claim inspects this text. -/
def pyReprBytes (b : List Nat) : String :=
  "b" ++ squote ++ strIntercalate " " (b.map toString) ++ squote

/-- Python str of the attachments list, a list of [filename, bytes] pairs. -/
def pyReprAttachments (l : List (String × List Nat)) : String :=
  "[" ++ strIntercalate ", "
    (l.map (fun a => "[" ++ pyStrRepr a.1 ++ ", " ++ pyReprBytes a.2 ++ "]")) ++ "]"

/-- Python str() applied to a field value; str(None) is the text None. -/
def pyStrOfValue : FieldValue → String
  | .str x => x
  | .optStr (some x) => x
  | .optStr none => "None"
  | .atts l => pyReprAttachments l

/-- The KeyError message of Message.__getitem__ (src/mailer.py line 110):
the f-string interpolates the class name, len(self.keys) and self.keys,
whose Python rendering lists all eight allowed keys in quotes. -/
def Message.keyErrorString : String :=
  "Message has only " ++ toString Message.keys.length ++ " allowed keys: " ++
    "[" ++ strIntercalate ", " (Message.keys.map pyStrRepr) ++ "]"

/-- Message.__getitem__ (src/mailer.py lines 106-110). -/
def Message.getitem (m : Message) (i : String) : Except PyErr FieldValue :=
  if i ∈ Message.keys then .ok (m.field i)
  else .error (.keyError Message.keyErrorString)

/-- Message.serialize (src/mailer.py lines 100-101): an insertion-ordered
dict comprehension over self.keys, modelled as an association list. -/
def Message.serialize (m : Message) : List (String × String) :=
  Message.keys.map (fun k => (k, pyStrOfValue (m.field k)))

/-- The names imported at the top of src/mailer.py (lines 1-10).  The name
json is not among them, so every json.dumps call in the module raises
NameError at run time. -/
def mailerModuleImports : List String :=
  ["typing", "imaplib", "email", "os", "time", "socket",
   "email.policy.default", "email.utils.parsedate_to_datetime"]

/-- Escape of quote and backslash for the JSON encoder. -/
def jsonEscape (x : String) : String :=
  (x.toList.map (fun c =>
    if c = Char.ofNat 34 then "\\" ++ String.singleton (Char.ofNat 34)
    else if c = Char.ofNat 92 then "\\\\"
    else String.singleton c)).foldr (fun a b => a ++ b) ""

/-- A JSON string literal. -/
def jsonQuote (x : String) : String := "\"" ++ jsonEscape x ++ "\""

/-- json.dumps of a string-to-string mapping; the indent variant inserts
newlines and indentation the way the Python encoder does. -/
def jsonDumpsPairs (l : List (String × String)) (indent : Option Nat) : String :=
  match indent with
  | none =>
      "\x7b" ++ strIntercalate ", "
        (l.map (fun p => jsonQuote p.1 ++ ": " ++ jsonQuote p.2)) ++ "\x7d"
  | some n =>
      "\x7b\n" ++ strIntercalate ",\n"
        (l.map (fun p =>
          String.mk (List.replicate n (Char.ofNat 32)) ++ jsonQuote p.1 ++ ": " ++ jsonQuote p.2))
        ++ "\n\x7d"

/-- Message.json (src/mailer.py lines 102-103): the body looks up the global
name json before anything else runs; since the module never imports json,
the call raises NameError regardless of the message or the indent value. -/
def Message.json (m : Message) (indent : Option Nat) : Except PyErr String :=
  if "json" ∈ mailerModuleImports then .ok (jsonDumpsPairs m.serialize indent)
  else .error (.nameError "json")

/-- Python str.split on a single-character separator, on the character
list of the string: s.split(sep) for the one-character separators the
source uses. -/
def pySplitChar (sep : Char) : List Char → List (List Char)
  | [] => [[]]
  | c :: cs =>
      let rest := pySplitChar sep cs
      if c = sep then [] :: rest
      else match rest with
        | r :: rs => (c :: r) :: rs
        | [] => [[c]]

/-- The short_id computed by save_attachments (src/mailer.py line 93):
self.id.split at the commercial at sign, first component, first character
removed. -/
def shortIdOf (id : String) : String :=
  String.mk (((pySplitChar (Char.ofNat 64) id.toList).headD []).drop 1)

/-- The default name_format string, applied: short_id, underscore, name. -/
def defaultNameFormat (short_id name : String) : String := short_id ++ "_" ++ name

/-- os.path.join for the two-argument case used at src/mailer.py line 94,
with the path tests spelled out on character lists. -/
def osPathJoin (a b : String) : String :=
  if b.toList.take 1 = [Char.ofNat 47] then b
  else if a = "" then b
  else if a.toList.getLast? = some (Char.ofNat 47) then a ++ b
  else a ++ String.singleton (Char.ofNat 47) ++ b

/-- Message.save_attachments (src/mailer.py lines 89-98).  The filesystem
effect is modelled by returning, besides the list of saved file names, the
list of (path, bytes) writes in the order they are performed. -/
def Message.save_attachments (m : Message) (directory : String)
    (name_format : String → String → String) :
    List String × List (String × List Nat) :=
  let entries := m.attachments.map (fun a =>
    let newName := name_format (shortIdOf m.id) a.1
    (newName, (osPathJoin directory newName, a.2)))
  (entries.map (fun e => e.1), entries.map (fun e => e.2))

/-- The IMAP session state owned by a Mailer: account folders with their
messages (folder names already extracted from the LIST descriptors), the
default folder, the currently selected folder, and the status the server
reports for the LIST, SEARCH and FETCH calls (true meaning OK). -/
structure Session where
  folders : List (String × List RawMsg)
  default_box : String
  selected : String
  listOK : Bool
  searchOK : Bool
  fetchOK : Bool
deriving DecidableEq

/-- Result of a Mailer operation: a normal value, the rv status string the
code returns on a non-OK server reply, or a raised exception. -/
inductive MRes (α : Type) where
  | val : α → MRes α
  | status : String → MRes α
  | err : PyErr → MRes α
deriving DecidableEq

/-- Mailer.get_mailboxes (src/mailer.py lines 171-179): the folder names on
OK status, the empty list otherwise. -/
def Session.get_mailboxes (s : Session) : List String :=
  if s.listOK then s.folders.map (fun p => p.1) else []

/-- The messages stored in a named folder; empty if no such folder. -/
def Session.msgsIn (s : Session) (f : String) : List RawMsg :=
  ((s.folders.find? (fun p => p.1 = f)).map (fun p => p.2)).getD []

/-- IMAP SELECT (src/mailer.py calls self.select): changes the currently
selected folder, nothing else. -/
def Session.select (s : Session) (f : String) : Session := { s with selected := f }

/-- The Mailer.messages property (src/mailer.py lines 181-189): an ALL
search over the currently selected folder; on OK the sequence numbers
1..count, otherwise the rv status string is returned, not raised. -/
def Session.messagesProp (s : Session) : MRes (List Nat) :=
  if s.searchOK then
    .val ((List.range (s.msgsIn s.selected).length).map (fun i => i + 1))
  else .status "NO"

/-- len(self.messages) as evaluated by get_message and slice_messages: the
length of the sequence-number list on OK search, and the length of the rv
status string otherwise (Python len of a str). -/
def Session.pyLenMessages (s : Session) : Nat :=
  match s.messagesProp with
  | .val l => l.length
  | .status rv => rv.length
  | .err _ => 0

/-- The ValueError message raised by Mailer.get_messages on an invalid
folder name (src/mailer.py lines 199-201). -/
def mailerGetMessagesErrText : String :=
  "Mailer.messages method takes a string mailbox name, that exists in list from Mailer.get_mailboxes() method"

/-- Mailer.get_messages (src/mailer.py lines 191-203): select the folder,
run the ALL search, select the default folder back, return the search
result; ValueError on an unknown folder name. -/
def Session.get_messages (s : Session) (mailbox_name : String) :
    MRes (List Nat) × Session :=
  if mailbox_name ∈ s.get_mailboxes then
    let s1 := s.select mailbox_name
    let msgs := s1.messagesProp
    let s2 := s1.select s.default_box
    (msgs, s2)
  else
    (.err (.valueError mailerGetMessagesErrText), s)

/-- IMAP FETCH of one sequence number on the selected folder: the message
when the server reports OK and the number addresses a message (sequence
numbers are 1-based), nothing otherwise. -/
def Session.fetchOne (s : Session) (mid : Int) : Option RawMsg :=
  if s.fetchOK then
    if mid ≤ 0 then none else (s.msgsIn s.selected).get? (mid - 1).toNat
  else none

/-- Mailer.get_message (src/mailer.py lines 205-226): select the folder,
add the message count to a non-positive msg_id, fetch it; on OK wrap the
payload in a Message tagged With the folder name and return at once; on a
non-OK fetch select the default folder back and return the status string.
On an unknown folder name the raise statement evaluates an f-string that
references the undefined global method_name, so NameError is raised before
any ValueError is constructed. -/
def Session.get_message (s : Session) (msg_id : Int) (mailbox_name : String) :
    MRes Message × Session :=
  if mailbox_name ∈ s.get_mailboxes then
    let s1 := s.select mailbox_name
    let mid : Int := if msg_id ≤ 0 then msg_id + s1.pyLenMessages else msg_id
    match s1.fetchOne mid with
    | some raw => (.val (Message.ofRaw raw (some mailbox_name)), s1)
    | none => (.status "NO", s1.select s.default_box)
  else
    (.err (.nameError "method_name"), s)

/-- IMAP FETCH of the inclusive range st:en on the selected folder: the
messages with sequence numbers st..en when the server reports OK and the
range is well formed and in bounds, nothing otherwise. -/
def Session.fetchRange (s : Session) (st en : Int) : Option (List RawMsg) :=
  if s.fetchOK then
    let msgs := s.msgsIn s.selected
    if 1 ≤ st ∧ st ≤ en ∧ en ≤ (msgs.length : Int) then
      some ((msgs.drop (st.toNat - 1)).take (en - st + 1).toNat)
    else none
  else none

/-- Mailer.slice_messages (src/mailer.py lines 228-256): select the folder,
add the message count to non-positive bounds, clamp to 1..count, fetch the
inclusive range in one call; on OK keep the fetched items whose position i
in the fetched result satisfies i mod step = 0 and return at once; on a
non-OK fetch select the default folder back and return the status string.
Each fetched item is a well-formed payload here, so the isinstance checks
of line 244 hold for every item.  On an unknown folder name the raise
statement references the undefined global method_name, raising NameError. -/
def Session.slice_messages (s : Session) (start end_ : Int) (mailbox_name : String)
    (step : Nat) : MRes (List Message) × Session :=
  if mailbox_name ∈ s.get_mailboxes then
    let s1 := s.select mailbox_name
    let st0 : Int := if start ≤ 0 then start + s1.pyLenMessages else start
    let en0 : Int := if end_ ≤ 0 then end_ + s1.pyLenMessages else end_
    let st : Int := max 1 st0
    let en : Int := min (s1.pyLenMessages : Int) en0
    match s1.fetchRange st en with
    | some raws =>
        (.val ((raws.enum.filter (fun p => p.1 % step == 0)).map
          (fun p => Message.ofRaw p.2 (some mailbox_name))), s1)
    | none => (.status "NO", s1.select s.default_box)
  else
    (.err (.nameError "method_name"), s)

/-- MailBox.__getitem__ with an integer key (src/mailer.py lines 121-123):
delegates to Mailer.get_message with the box name. -/
def mailBoxGetItemInt (s : Session) (name : String) (i : Int) :
    MRes Message × Session :=
  s.get_message i name

/-- Mailer.__getitem__ with an integer key (src/mailer.py lines 275-276):
MailBox(self, self.default_box)[key]. -/
def Session.mailerGetItemInt (s : Session) (i : Int) : MRes Message × Session :=
  mailBoxGetItemInt s s.default_box i

/-- Mailer.serialize (src/mailer.py lines 281-282): a comprehension calling
msg.serialize() on every element of self.messages.  On an OK search that
value is a list of int sequence numbers, so the first iteration of a
non-empty list raises AttributeError; on a non-OK search it is the rv
status string, whose characters are str objects without serialize either. -/
def Session.mailerSerialize (s : Session) :
    Except PyErr (List (List (String × String))) :=
  match s.messagesProp with
  | .val ids =>
      if ids.isEmpty then .ok []
      else .error (.attributeError "int object has no attribute serialize")
  | .status rv =>
      if rv.isEmpty then .ok []
      else .error (.attributeError "str object has no attribute serialize")
  | .err e => .error e

/-- json.dumps of a list of mappings, used by the unreachable OK branch of
Mailer.json; the indent option is forwarded to the element encoder. -/
def jsonDumpsListPairs (l : List (List (String × String))) (indent : Option Nat) : String :=
  "[" ++ strIntercalate ", " (l.map (fun d => jsonDumpsPairs d indent)) ++ "]"

/-- Mailer.json (src/mailer.py lines 283-284): the name json is looked up
first and is undefined in the module, so NameError is raised. -/
def Session.mailerJson (s : Session) (indent : Option Nat) : Except PyErr String :=
  if "json" ∈ mailerModuleImports then
    match s.mailerSerialize with
    | .ok l => .ok (jsonDumpsListPairs l indent)
    | .error e => .error e
  else .error (.nameError "json")

/-- The message id of a get_message result, when it produced a Message. -/
def mresIdOf : MRes Message → Option String
  | .val m => some m.id
  | _ => none

/-- The message list of a slice_messages result, empty when it failed. -/
def mresListD : MRes (List Message) → List Message
  | .val l => l
  | _ => []

/-- The fetched inclusive range start..end_ of folder f, as a list. -/
def fetchedSlice (s : Session) (f : String) (start end_ : Int) : List RawMsg :=
  (((s.msgsIn f).drop (start.toNat - 1)).take (end_ - start + 1).toNat)

/-- A concrete two-message raw payload, first message. -/
def rawA : RawMsg where
  id := "<a@x>"
  From := "alice"
  To := "bob"
  subject := "s1"
  date_sent := "d1"
  date_received := "e1"
  attachments := []
  body := some "ha"

/-- A concrete two-message raw payload, second message. -/
def rawB : RawMsg where
  id := "<b@x>"
  From := "bob"
  To := "alice"
  subject := "s2"
  date_sent := "d2"
  date_received := "e2"
  attachments := []
  body := none

/-- A session with one INBOX folder holding two messages, all protocol
calls reporting OK. -/
def sAB : Session where
  folders := [("INBOX", [rawA, rawB])]
  default_box := "INBOX"
  selected := "INBOX"
  listOK := true
  searchOK := true
  fetchOK := true

/-- A session with two folders, INBOX as default, all calls OK. -/
def sTwo : Session where
  folders := [("INBOX", [rawA, rawB]), ("Sent", [rawB])]
  default_box := "INBOX"
  selected := "INBOX"
  listOK := true
  searchOK := true
  fetchOK := true

/-- The two-folder session with the server answering the FETCH calls with
a non-OK status. -/
def sNoFetch : Session where
  folders := [("INBOX", [rawA, rawB]), ("Sent", [rawB])]
  default_box := "INBOX"
  selected := "INBOX"
  listOK := true
  searchOK := true
  fetchOK := false

/-- The n-th of ten interchangeable raw messages. -/
def rawN (n : Nat) : RawMsg where
  id := toString n
  From := "F"
  To := "T"
  subject := "S"
  date_sent := "d"
  date_received := "e"
  attachments := []
  body := none

/-- A session whose default INBOX folder holds ten messages. -/
def s10 : Session where
  folders := [("INBOX", (List.range 10).map rawN)]
  default_box := "INBOX"
  selected := "INBOX"
  listOK := true
  searchOK := true
  fetchOK := true

/-- A concrete message with one attachment, used for the save_attachments
scenario of the spec. -/
def msgAtt : Message where
  id := "<abc123@mail.example>"
  From := "F"
  To := "T"
  subject := "S"
  date_sent := "d"
  date_received := "e"
  attachments := [("report.pdf", [1, 2, 3])]
  body := none
  mailbox_name := none

@[simp] theorem Session.select_folders (s : Session) (f : String) :
    (s.select f).folders = s.folders := rfl

@[simp] theorem Session.select_selected (s : Session) (f : String) :
    (s.select f).selected = f := rfl

@[simp] theorem Session.select_default_box (s : Session) (f : String) :
    (s.select f).default_box = s.default_box := rfl

@[simp] theorem Session.select_listOK (s : Session) (f : String) :
    (s.select f).listOK = s.listOK := rfl

@[simp] theorem Session.select_searchOK (s : Session) (f : String) :
    (s.select f).searchOK = s.searchOK := rfl

@[simp] theorem Session.select_fetchOK (s : Session) (f : String) :
    (s.select f).fetchOK = s.fetchOK := rfl

@[simp] theorem Session.msgsIn_select (s : Session) (f g : String) :
    (s.select f).msgsIn g = s.msgsIn g := rfl

theorem Session.pyLen_select (s : Session) (f : String) (h : s.searchOK = true) :
    (s.select f).pyLenMessages = (s.msgsIn f).length := by
  simp [Session.pyLenMessages, Session.messagesProp, h]

theorem Session.get_message_pos_eval (s : Session) (f : String) (n : Int) (r : RawMsg)
    (hf : f ∈ s.get_mailboxes) (hfetch : s.fetchOK = true) (hn : 0 < n)
    (hr : (s.msgsIn f).get? (n - 1).toNat = some r) :
    s.get_message n f = (.val (Message.ofRaw r (some f)), s.select f) := by
  have h2 : ¬ n ≤ 0 := by omega
  simp only [Session.get_message, if_pos hf, h2, if_false,
    Session.fetchOne, Session.select_fetchOK, hfetch, if_true,
    Session.msgsIn_select, Session.select_selected, hr]

theorem Session.get_message_nonpos_eval (s : Session) (f : String) (n : Int) (r : RawMsg)
    (hf : f ∈ s.get_mailboxes) (hsearch : s.searchOK = true) (hfetch : s.fetchOK = true)
    (hn : n ≤ 0) (hpos : 0 < n + ((s.msgsIn f).length : Int))
    (hr : (s.msgsIn f).get? (n + ((s.msgsIn f).length : Int) - 1).toNat = some r) :
    s.get_message n f = (.val (Message.ofRaw r (some f)), s.select f) := by
  have h2 : ¬ n + ((s.msgsIn f).length : Int) ≤ 0 := by omega
  simp only [Session.get_message, if_pos hf, Session.pyLen_select s f hsearch,
    hn, if_true, Session.fetchOne, Session.select_fetchOK, hfetch,
    Session.msgsIn_select, Session.select_selected, h2, if_false, hr]

/-- Claim C1, counterexample: the claim states that for 0 < n <= count,
get_message(n, f) and get_message(n - count - 1, f) return messages with
identical message id.  On a session whose INBOX folder holds exactly two
messages with distinct ids, taking n = 2 gives n - count - 1 = -1, which
the rule msg_id += message_count maps to sequence number 1, not 2: the two
calls return messages whose ids differ, so the claim is false. -/
theorem get_message_offset_counterexample :
    "INBOX" ∈ sAB.get_mailboxes ∧
    (sAB.msgsIn "INBOX").length = 2 ∧
    mresIdOf (sAB.get_message 2 "INBOX").1 = some "<b@x>" ∧
    mresIdOf (sAB.get_message (2 - 2 - 1) "INBOX").1 = some "<a@x>" ∧
    mresIdOf (sAB.get_message 2 "INBOX").1 ≠
      mresIdOf (sAB.get_message (2 - 2 - 1) "INBOX").1 := by
  refine ⟨by decide, by decide, by decide, by decide, by decide⟩

/-- Claim C1, amended: for every folder f present in get_mailboxes() with
message count count, and every n with 0 < n <= count, get_message(n, f)
and get_message(n - count, f) return messages with identical message id:
the documented rule msg_id += message_count maps the non-positive argument
m = n - count to the same message as the 1-based index n (the amendment
replaces the n - count - 1 of the claim, which addresses index n - 1, by
n - count). -/
theorem get_message_negative_offset (s : Session) (f : String) (n : Int)
    (hf : f ∈ s.get_mailboxes) (hsearch : s.searchOK = true) (hfetch : s.fetchOK = true)
    (hn : 0 < n) (hc : n ≤ ((s.msgsIn f).length : Int)) :
    (mresIdOf (s.get_message n f).1).isSome = true ∧
    mresIdOf (s.get_message n f).1 =
      mresIdOf (s.get_message (n - ((s.msgsIn f).length : Int)) f).1 := by
  cases hget : (s.msgsIn f).get? (n - 1).toNat with
  | none =>
      exfalso
      have := List.get?_eq_none.mp hget
      omega
  | some r =>
      have hA := Session.get_message_pos_eval s f n r hf hfetch hn hget
      have hB := Session.get_message_nonpos_eval s f (n - ((s.msgsIn f).length : Int)) r
        hf hsearch hfetch (by omega) (by omega) (by
          have hx : n - ((s.msgsIn f).length : Int) + ((s.msgsIn f).length : Int) - 1 = n - 1 := by ring
          rw [hx]; exact hget)
      rw [hA, hB]
      exact ⟨rfl, rfl⟩

/-- Claim C1, witness for the amended theorem at the concrete two-message
session with n = 2. -/
theorem get_message_negative_offset_witness :
    (mresIdOf (sAB.get_message 2 "INBOX").1).isSome = true ∧
    mresIdOf (sAB.get_message 2 "INBOX").1 =
      mresIdOf (sAB.get_message (2 - 2) "INBOX").1 := by
  have h := get_message_negative_offset sAB "INBOX" 2 (by decide) rfl rfl
    (by norm_num) (by decide)
  exact ⟨h.1, h.2.trans (by decide)⟩

/-- Claim C6: on a Mailer whose default folder contains 10 messages, the
integer indexing mailer[0] goes through MailBox to get_message(0), takes
the msg_id <= 0 branch, computes 0 + 10 = 10 and returns the 10th (last)
message of the default folder rather than failing. -/
theorem mailer_getitem_zero (s : Session) (r : RawMsg)
    (hf : s.default_box ∈ s.get_mailboxes) (hsearch : s.searchOK = true)
    (hfetch : s.fetchOK = true) (hlen : (s.msgsIn s.default_box).length = 10)
    (hr : (s.msgsIn s.default_box).get? 9 = some r) :
    (s.mailerGetItemInt 0).1 = .val (Message.ofRaw r (some s.default_box)) := by
  have h := Session.get_message_nonpos_eval s s.default_box 0 r hf hsearch hfetch
    (by omega) (by rw [hlen]; norm_num) (by rw [hlen]; simpa using hr)
  simp only [Session.mailerGetItemInt, mailBoxGetItemInt, h]

/-- Claim C6, witness at the concrete ten-message session. -/
theorem mailer_getitem_zero_witness :
    (s10.mailerGetItemInt 0).1 = .val (Message.ofRaw (rawN 9) (some "INBOX")) := by
  have h := mailer_getitem_zero s10 (rawN 9) (by decide) rfl rfl (by decide) (by decide)
  exact h.trans (by decide)

theorem Session.slice_messages_eval (s : Session) (f : String) (start end_ : Int)
    (step : Nat) (hf : f ∈ s.get_mailboxes) (hsearch : s.searchOK = true)
    (hfetch : s.fetchOK = true)
    (h1 : 1 ≤ start) (h2 : start ≤ end_) (h3 : end_ ≤ ((s.msgsIn f).length : Int)) :
    s.slice_messages start end_ f step =
      (.val (((fetchedSlice s f start end_).enum.filter (fun p => p.1 % step == 0)).map
        (fun p => Message.ofRaw p.2 (some f))), s.select f) := by
  have hs0 : ¬ start ≤ 0 := by omega
  have he0 : ¬ end_ ≤ 0 := by omega
  have hmax : max 1 start = start := by omega
  have hmin : min ((s.msgsIn f).length : Int) end_ = end_ := by omega
  simp only [Session.slice_messages, if_pos hf, Session.pyLen_select s f hsearch,
    hs0, if_false, he0, hmax, hmin, Session.fetchRange, Session.select_fetchOK,
    hfetch, if_true, Session.msgsIn_select, Session.select_selected]
  rw [if_pos ⟨h1, h2, h3⟩]
  rfl

theorem fetchedSlice_length (s : Session) (f : String) (start end_ : Int)
    (h1 : 1 ≤ start) (h2 : start ≤ end_) (h3 : end_ ≤ ((s.msgsIn f).length : Int)) :
    ((fetchedSlice s f start end_).length : Int) = end_ - start + 1 := by
  simp only [fetchedSlice, List.length_take, List.length_drop]
  omega

/-- Claim C2: for every valid folder f with count messages and bounds with
1 <= start <= end <= count, slice_messages fetches the inclusive range
start..end and returns exactly those fetched items whose position in the
fetched result (0-based, not the computed sequence number) is divisible by
step, in fetched order; with step = 1 it returns exactly end - start + 1
messages. -/
theorem slice_messages_spec (s : Session) (f : String) (start end_ : Int) (step : Nat)
    (hf : f ∈ s.get_mailboxes) (hsearch : s.searchOK = true) (hfetch : s.fetchOK = true)
    (hstep : 1 ≤ step)
    (h1 : 1 ≤ start) (h2 : start ≤ end_) (h3 : end_ ≤ ((s.msgsIn f).length : Int)) :
    (s.slice_messages start end_ f step).1 =
      .val (((fetchedSlice s f start end_).enum.filter (fun p => p.1 % step == 0)).map
        (fun p => Message.ofRaw p.2 (some f))) ∧
    (step = 1 →
      ((mresListD (s.slice_messages start end_ f step).1).length : Int) =
        end_ - start + 1) := by
  have heval := Session.slice_messages_eval s f start end_ step hf hsearch hfetch h1 h2 h3
  constructor
  · rw [heval]
  · intro hone
    subst hone
    rw [heval]
    have hfil : ((fetchedSlice s f start end_).enum.filter
        (fun p => p.1 % 1 == 0)) = (fetchedSlice s f start end_).enum := by
      rw [List.filter_eq_self]
      intro a _
      simp [Nat.mod_one]
    simp only [mresListD, hfil, List.length_map, List.enum_length]
    exact fetchedSlice_length s f start end_ h1 h2 h3

/-- Claim C2, witness at the concrete two-message session with the full
range and step 1. -/
theorem slice_messages_spec_witness :
    (sAB.slice_messages 1 2 "INBOX" 1).1 =
      .val [Message.ofRaw rawA (some "INBOX"), Message.ofRaw rawB (some "INBOX")] ∧
    ((mresListD (sAB.slice_messages 1 2 "INBOX" 1).1).length : Int) = 2 - 1 + 1 := by
  have h := slice_messages_spec sAB "INBOX" 1 2 1 (by decide) rfl rfl (le_refl 1)
    (by norm_num) (by norm_num) (by decide)
  exact ⟨h.1.trans (by decide), h.2 rfl⟩

/-- Claim C3, code bug demonstration: the claim says Mailer.serialize()
returns one plain mapping per message of the default folder when the ALL
search succeeds, but self.messages is the list of integer sequence numbers
the search returns, so on a session whose default folder holds two
messages the comprehension calls serialize() on an int and raises
AttributeError instead of returning mappings. -/
theorem mailer_serialize_attribute_error :
    sAB.searchOK = true ∧
    sAB.selected = sAB.default_box ∧
    (sAB.msgsIn sAB.default_box).length = 2 ∧
    sAB.mailerSerialize =
      .error (.attributeError "int object has no attribute serialize") := by
  refine ⟨rfl, rfl, by decide, rfl⟩

/-- Claim C4, code bug demonstration: the claim says get_messages,
get_message and slice_messages all fail with an InvalidArgument-kind error
naming the valid-folder requirement on an unknown folder name.  Only
get_messages does: the raise statements of get_message and slice_messages
interpolate the undefined global method_name into their f-string, so those
two fail with NameError and no diagnostic instead. -/
theorem invalid_folder_error_kinds :
    ("NOFOLDER" ∉ sAB.get_mailboxes) ∧
    (sAB.get_message 1 "NOFOLDER").1 = .err (.nameError "method_name") ∧
    (sAB.slice_messages 1 2 "NOFOLDER" 1).1 = .err (.nameError "method_name") ∧
    (sAB.get_messages "NOFOLDER").1 = .err (.valueError mailerGetMessagesErrText) := by
  refine ⟨by decide, by decide, by decide, by decide⟩

/-- Claim C5, code bug demonstration: the claim says json(indent) returns
the JSON encoding of serialize() and never fails when serialize()
succeeds.  Message.serialize always succeeds, producing the 8-key mapping,
yet every json() call (on Message and on Mailer alike) raises NameError,
because the module never imports json. -/
theorem json_raises_name_error (m : Message) (s : Session) (indent : Option Nat) :
    (Message.serialize m).length = 8 ∧
    Message.json m indent = .error (.nameError "json") ∧
    Session.mailerJson s indent = .error (.nameError "json") := by
  refine ⟨?_, ?_, ?_⟩
  · simp [Message.serialize, Message.keys]
  · unfold Message.json
    rw [if_neg (by decide)]
  · unfold Session.mailerJson
    rw [if_neg (by decide)]

set_option maxRecDepth 4000 in
/-- Claim C7: for every Message and every key outside the fixed set of 8
field names, subscript access fails with a KeyError whose message
enumerates all 8 allowed keys (each key occurs in the message text); for
each key inside the set it returns the corresponding field. -/
theorem message_getitem_keys (m : Message) (key : String)
    (hk : key ∉ Message.keys) :
    m.getitem key = .error (.keyError Message.keyErrorString) ∧
    (∀ k ∈ Message.keys, List.IsInfix k.toList Message.keyErrorString.toList) ∧
    m.getitem "id" = .ok (.str m.id) ∧
    m.getitem "From" = .ok (.str m.From) ∧
    m.getitem "To" = .ok (.str m.To) ∧
    m.getitem "subject" = .ok (.str m.subject) ∧
    m.getitem "date_sent" = .ok (.str m.date_sent) ∧
    m.getitem "date_received" = .ok (.str m.date_received) ∧
    m.getitem "attachments" = .ok (.atts m.attachments) ∧
    m.getitem "body" = .ok (.optStr m.body) := by
  refine ⟨?_, by decide, rfl, rfl, rfl, rfl, rfl, rfl, rfl, rfl⟩
  unfold Message.getitem
  rw [if_neg hk]

/-- Claim C7, witness at a concrete message and the key nonexistent. -/
theorem message_getitem_keys_witness :
    msgAtt.getitem "nonexistent" = .error (.keyError Message.keyErrorString) ∧
    msgAtt.getitem "id" = .ok (.str msgAtt.id) :=
  ⟨(message_getitem_keys msgAtt "nonexistent" (by decide)).1,
   (message_getitem_keys msgAtt "nonexistent" (by decide)).2.2.1⟩

/-- Claim C8: save_attachments with the default name format writes one
file per attachment in attachment order, named short_id underscore name,
where short_id is the part of the message id before the commercial at sign
with its leading angle bracket removed; on the concrete message with id
angle-abc123 at mail.example and one attachment report.pdf it writes
abc123_report.pdf into the directory and returns that single name. -/
theorem save_attachments_spec (m : Message) (directory : String) :
    (m.save_attachments directory defaultNameFormat).1 =
      m.attachments.map (fun a => shortIdOf m.id ++ "_" ++ a.1) ∧
    (m.save_attachments directory defaultNameFormat).2 =
      m.attachments.map (fun a =>
        (osPathJoin directory (shortIdOf m.id ++ "_" ++ a.1), a.2)) ∧
    shortIdOf "<abc123@mail.example>" = "abc123" ∧
    (msgAtt.save_attachments "outdir" defaultNameFormat).1 = ["abc123_report.pdf"] ∧
    (msgAtt.save_attachments "outdir" defaultNameFormat).2 =
      [("outdir/abc123_report.pdf", [1, 2, 3])] := by
  refine ⟨?_, ?_, by decide, by decide, by decide⟩
  · simp [Message.save_attachments, defaultNameFormat]
  · simp [Message.save_attachments, defaultNameFormat]

/-- Claim C9: for every valid folder name, a successful get_messages call
performs the ALL search in that folder (returning its sequence numbers
1..count) and re-selects the default folder before returning, so the
session afterwards equals the original session with only the selected
folder set to the default folder. -/
theorem get_messages_reselects_default (s : Session) (f : String)
    (hf : f ∈ s.get_mailboxes) (hsearch : s.searchOK = true) :
    s.get_messages f =
      (.val ((List.range (s.msgsIn f).length).map (fun i => i + 1)),
       { s with selected := s.default_box }) := by
  simp only [Session.get_messages, if_pos hf, Session.messagesProp,
    Session.select_searchOK, hsearch, if_true, Session.msgsIn_select,
    Session.select_selected]
  simp [Session.select, hsearch]

/-- Claim C9, witness at the two-folder session, listing the Sent folder
from the INBOX default. -/
theorem get_messages_reselects_default_witness :
    sTwo.get_messages "Sent" = (.val [1], { sTwo with selected := "INBOX" }) := by
  have h := get_messages_reselects_default sTwo "Sent" (by decide) rfl
  exact h.trans (by decide)

theorem Session.get_message_cases (s : Session) (f : String) (n : Int)
    (hf : f ∈ s.get_mailboxes) :
    (∃ raw, s.get_message n f = (.val (Message.ofRaw raw (some f)), s.select f)) ∨
    s.get_message n f = (.status "NO", (s.select f).select s.default_box) := by
  simp only [Session.get_message, if_pos hf]
  split
  · next raw heq => exact .inl ⟨raw, rfl⟩
  · exact .inr rfl

theorem Session.slice_messages_cases (s : Session) (f : String)
    (start end_ : Int) (step : Nat) (hf : f ∈ s.get_mailboxes) :
    (∃ raws : List RawMsg, s.slice_messages start end_ f step =
      (.val ((raws.enum.filter (fun p => p.1 % step == 0)).map
        (fun p => Message.ofRaw p.2 (some f))), s.select f)) ∨
    s.slice_messages start end_ f step =
      (.status "NO", (s.select f).select s.default_box) := by
  simp only [Session.slice_messages, if_pos hf]
  split
  · next raws heq => exact .inl ⟨raws, rfl⟩
  · exact .inr rfl

/-- Claim C10: on the successful fetch path, get_message and
slice_messages return right after constructing their result, leaving the
requested folder selected; the default folder is re-selected only on the
branch where the fetch status is not OK, which returns the status
string. -/
theorem fetch_ok_keeps_folder_selected (s : Session) (f : String)
    (n start end_ : Int) (step : Nat) (hf : f ∈ s.get_mailboxes) :
    (∀ m, (s.get_message n f).1 = .val m →
      (s.get_message n f).2 = { s with selected := f }) ∧
    (∀ l, (s.slice_messages start end_ f step).1 = .val l →
      (s.slice_messages start end_ f step).2 = { s with selected := f }) ∧
    (∀ rv, (s.get_message n f).1 = .status rv →
      (s.get_message n f).2 = { s with selected := s.default_box }) ∧
    (∀ rv, (s.slice_messages start end_ f step).1 = .status rv →
      (s.slice_messages start end_ f step).2 = { s with selected := s.default_box }) := by
  rcases Session.get_message_cases s f n hf with ⟨raw, hg⟩ | hg <;>
    rcases Session.slice_messages_cases s f start end_ step hf with ⟨raws, hs⟩ | hs <;>
    refine ⟨?_, ?_, ?_, ?_⟩ <;>
    simp [hg, hs, Session.select]

/-- Claim C10, witness: a successful fetch in the Sent folder leaves Sent
selected, and a failed fetch re-selects the INBOX default. -/
theorem fetch_ok_keeps_folder_selected_witness :
    (sTwo.get_message 1 "Sent").2 = { sTwo with selected := "Sent" } ∧
    (sNoFetch.get_message 1 "Sent").2 = { sNoFetch with selected := "INBOX" } := by
  constructor
  · exact (fetch_ok_keeps_folder_selected sTwo "Sent" 1 1 1 1 (by decide)).1
      (Message.ofRaw rawB (some "Sent")) (by decide)
  · exact ((fetch_ok_keeps_folder_selected sNoFetch "Sent" 1 1 1 1 (by decide)).2.2.1
      "NO" (by decide))
